import Mathlib

/-!
Shallow embedding of the shopping-scrape upload pipeline
(`src/utils/data_processing.py`, `src/database/models.py`, `src/main.py`).

Modelling conventions:
* A spreadsheet cell is a `Cell`: `blank` models a pandas NaN / Python `None`,
  `str`/`int`/`float`/`bool` model the corresponding Python values (floats as
  rationals), `dt` models a native `datetime`.
* A `datetime` is modelled by `DT`, carrying its ISO string (`isoformat()`).
* String primitives (`startswith`, substring containment, `lower`, `strip`)
  are modelled over `List Char` so that all definitions reduce in the kernel.
* Note on equality: the model's `DecidableEq Cell` makes `blank = blank` true,
  whereas Python `NaN == NaN` is false.  Theorems whose fidelity depends on
  this (duplicate-key comparisons on keywords) therefore carry a hypothesis
  that the relevant keywords are strings, matching what the database column
  actually holds.
-/

set_option maxRecDepth 4000

/-- A Python datetime, represented by its `isoformat()` string. -/
structure DT where
  iso : String
deriving DecidableEq, Repr

/-- A raw spreadsheet cell value.  `blank` models NaN/None. -/
inductive Cell where
  | blank : Cell
  | str : String → Cell
  | int : Int → Cell
  | float : ℚ → Cell
  | bool : Bool → Cell
  | dt : DT → Cell
deriving DecidableEq, Repr

/-- Models `pd.isna` on a cell: only NaN/None is "na". -/
def Cell.isna : Cell → Bool
  | Cell.blank => true
  | _ => false

/-- Models Python truthiness of a cell value.  NaN is a nonzero float,
hence truthy; the empty string and zero numbers are falsy. -/
def Cell.truthy : Cell → Bool
  | Cell.blank => true
  | Cell.str s => !s.isEmpty
  | Cell.int i => decide (i ≠ 0)
  | Cell.float q => decide (q ≠ 0)
  | Cell.bool b => b
  | Cell.dt _ => true

/-- Whether the cell is a string (used for database well-formedness). -/
def Cell.isStr : Cell → Bool
  | Cell.str _ => true
  | _ => false

/-- Models Python `str.lower()` (ASCII case folding, as in the data here). -/
def pyLower (s : String) : String :=
  String.mk (s.data.map Char.toLower)

/-- Models Python `str.strip()` on ASCII whitespace. -/
def pyStrip (s : String) : String :=
  String.mk (((s.data.dropWhile Char.isWhitespace).reverse.dropWhile Char.isWhitespace).reverse)

/-- Models Python `str(value)` for a cell.  The numeric and datetime cases
approximate the exact Python rendering; no theorem below depends on the
rendering of those cases. -/
def pyStr : Cell → String
  | Cell.blank => "nan"
  | Cell.str s => s
  | Cell.int i => toString i
  | Cell.float q => if q.den = 1 then toString q.num ++ ".0" else toString q.num ++ "/" ++ toString q.den
  | Cell.bool b => if b then "True" else "False"
  | Cell.dt d => d.iso

/-- Substring test over char lists, modelling Python `pat in s`. -/
def hasSub (pat : List Char) : List Char → Bool
  | [] => pat.isEmpty
  | c :: rest => pat.isPrefixOf (c :: rest) || hasSub pat rest

/-- Models Python `s.startswith(pat)`. -/
def startsWithS (pat s : String) : Bool :=
  pat.data.isPrefixOf s.data

/-- Models Python `pat in s` for strings. -/
def hasSubS (pat s : String) : Bool :=
  hasSub pat.data s.data

/-- Models `re.match(r'(\d{4}-\d{2}-\d{2})', s)`: an anchored match of a
date-shaped prefix, returning the matched group. -/
def matchYMD (s : String) : Option String :=
  match s.data with
  | a :: b :: c :: d :: e :: f :: g :: h :: i :: j :: _ =>
    if a.isDigit && b.isDigit && c.isDigit && d.isDigit && decide (e = '-') &&
       f.isDigit && g.isDigit && decide (h = '-') && i.isDigit && j.isDigit
    then some (String.mk [a, b, c, d, e, f, g, h, i, j]) else none
  | _ => none

/-- The code's date-part computation for an incoming record
(`date_match.group(1) if date_match else date_str`), also used to model
`str(DATE(scrape_date))` on a persisted timestamp (they agree on well-formed
ISO timestamp strings). -/
def datePart (s : String) : String :=
  (matchYMD s).getD s

/-- Left-pad a two-digit number (helper for the strptime model). -/
def pad2 (n : Nat) : String :=
  if n < 10 then "0" ++ Nat.repr n else Nat.repr n

/-- Whether every char of the string is an ASCII digit and the string is nonempty. -/
def allDigits (s : String) : Bool :=
  !s.isEmpty && s.data.all Char.isDigit

/-- Models `datetime.strptime(s, '%Y-%m-%d')` (shape and range check; on
success the resulting datetime's `isoformat()` is the padded date at
midnight). -/
def parseYMD (s : String) : Option DT :=
  match s.splitOn "-" with
  | [y, m, d] =>
    match m.toNat?, d.toNat? with
    | some mv, some dv =>
      if allDigits y && decide (y.length = 4) && allDigits m && decide (m.length ≤ 2) &&
         allDigits d && decide (d.length ≤ 2) &&
         decide (1 ≤ mv) && decide (mv ≤ 12) && decide (1 ≤ dv) && decide (dv ≤ 31)
      then some ⟨y ++ "-" ++ pad2 mv ++ "-" ++ pad2 dv ++ "T00:00:00"⟩ else none
    | _, _ => none
  | _ => none

/-- Models `datetime.strptime(s, '%d/%m/%Y')`. -/
def parseDMY (s : String) : Option DT :=
  match s.splitOn "/" with
  | [d, m, y] =>
    match m.toNat?, d.toNat? with
    | some mv, some dv =>
      if allDigits y && decide (y.length = 4) && allDigits m && decide (m.length ≤ 2) &&
         allDigits d && decide (d.length ≤ 2) &&
         decide (1 ≤ mv) && decide (mv ≤ 12) && decide (1 ≤ dv) && decide (dv ≤ 31)
      then some ⟨y ++ "-" ++ pad2 mv ++ "-" ++ pad2 dv ++ "T00:00:00"⟩ else none
    | _, _ => none
  | _ => none

/-- The currency symbols and thousands separator stripped by `clean_price`. -/
def priceSyms : List Char := ['$', '£', '€', ',']

/-- Models the string stripping in `clean_price`
(`replace('$','').replace('£','').replace('€','').replace(',','')`). -/
def stripSyms (l : List Char) : List Char :=
  l.filter (fun c => !(decide (c ∈ priceSyms)))

/-- Value of a digit run as a natural number. -/
def digitsVal (l : List Char) : Nat :=
  l.foldl (fun acc c => acc * 10 + (c.toNat - '0'.toNat)) 0

/-- Value of the regex match `\d+\.?\d*` starting at a digit: integer part,
optional decimal point, fractional part. -/
def numVal (l : List Char) : ℚ :=
  let d1 := l.takeWhile Char.isDigit
  let rest := l.dropWhile Char.isDigit
  match rest with
  | '.' :: r2 =>
    let d2 := r2.takeWhile Char.isDigit
    (digitsVal d1 : ℚ) + (digitsVal d2 : ℚ) / ((10 : ℚ) ^ d2.length)
  | _ => (digitsVal d1 : ℚ)

/-- Models `re.findall(r'\d+\.?\d*', s)[0]` (equivalently `re.search`): the
value of the first run of digits with an optional decimal point, if any digit
occurs. -/
def firstNum : List Char → Option ℚ
  | [] => none
  | c :: cs => if c.isDigit then some (numVal (c :: cs)) else firstNum cs

/-- Embeds `clean_price` (src/utils/data_processing.py:49-78).  Python
`bool` is an `int` subclass, so booleans take the numeric branch. -/
def clean_price : Cell → Option ℚ
  | Cell.blank => none
  | Cell.int i => some (i : ℚ)
  | Cell.float q => some q
  | Cell.bool b => some (if b then 1 else 0)
  | Cell.str s => (firstNum (stripSyms s.data)).map id
  | Cell.dt _ => none

/-- Embeds `clean_to_bool` (src/utils/data_processing.py:81-110). -/
def clean_to_bool : Cell → Option Bool
  | Cell.blank => none
  | Cell.bool b => some b
  | Cell.int i => some (decide (i ≠ 0))
  | Cell.float q => some (decide (q ≠ 0))
  | Cell.str s =>
    let v := pyStrip (pyLower s)
    if v ∈ ["true", "t", "yes", "y", "1", "1.0"] then some true
    else if v ∈ ["false", "f", "no", "n", "0", "0.0"] then some false
    else none
  | Cell.dt _ => none

/-- A sheet row: an association list from column name to raw cell value
(a pandas row restricted to the columns actually carrying data). -/
abbrev Row : Type := List (String × Cell)

/-- Finds a cell by column name, modelling `row.get(col)` returning `None`
when the column is absent. -/
def rowGet? (row : Row) (c : String) : Option Cell :=
  (List.find? (fun p => p.1 = c) row).map (fun p => p.2)

/-- Models `row.get(col)` with `None` mapped to NaN for uniform `isna`
handling (`pd.isna(None)` is true). -/
def cellOf (row : Row) (c : String) : Cell :=
  (rowGet? row c).getD Cell.blank

/-- Models `col in df.columns and not pd.isna(row.get(col))`. -/
def cellPresent (row : Row) (c : String) : Bool :=
  match rowGet? row c with
  | none => false
  | some v => !v.isna

/-- The canonical record handed to the database layer.  Required fields are
typed; optional fields mirror the optionally-present keys of the Python dict.
The keyword is a raw `Cell` because the shopping-grid transformer can store a
non-string `Query` value there. -/
structure Record where
  campaign_id : Int
  scrape_type_id : Int
  scrape_date : String
  keyword : Cell
  product_id : String
  title : String
  link : String
  position : Option Cell := none
  price : Option Cell := none
  price_raw : Option Cell := none
  merchant : Option Cell := none
  rating : Option Cell := none
  reviews : Option Cell := none
  is_carousel : Option Bool := none
  carousel_position : Option Cell := none
  has_product_page : Option Bool := none
deriving DecidableEq, Repr

/-- Models `datetime.isoformat()` never succeeding on a non-datetime: the
transformers raise `AttributeError` when the resolved row date is not a
datetime, which the embedding signals with `none`. -/
def cellToDT? : Cell → Option DT
  | Cell.dt d => some d
  | _ => none

/-- Embeds the row-date resolution shared by both transformers
(src/utils/data_processing.py:140-150 and 243-253): `row.get('Date',
scrape_date)`, then `%Y-%m-%d`, then `%d/%m/%Y`, then the sheet default.
Returns `none` when the final value is not a datetime (the subsequent
`.isoformat()` call would raise). -/
def resolveRowDate (row : Row) (defaultDate : Cell) : Option DT :=
  match (rowGet? row "Date").getD defaultDate with
  | Cell.str s =>
    match parseYMD s with
    | some d => some d
    | none =>
      match parseDMY s with
      | some d => some d
      | none => cellToDT? defaultDate
  | Cell.dt d => some d
  | _ => cellToDT? defaultDate

/-- Models `int(float(x))`: rational truncation toward zero, as in Python. -/
def ratTrunc (q : ℚ) : Int :=
  Int.tdiv q.num (q.den : Int)

/-- Parse of an unsigned Python float literal (digits with an optional
decimal point; scientific notation is not used by this pipeline). -/
def parseUFloat? (l : List Char) : Option ℚ :=
  let d1 := l.takeWhile Char.isDigit
  let rest := l.dropWhile Char.isDigit
  match rest with
  | [] => if d1.isEmpty then none else some ((digitsVal d1 : ℚ))
  | '.' :: r2 =>
    let d2 := r2.takeWhile Char.isDigit
    let rest2 := r2.dropWhile Char.isDigit
    if rest2.isEmpty && !(d1.isEmpty && d2.isEmpty)
    then some ((digitsVal d1 : ℚ) + (digitsVal d2 : ℚ) / ((10 : ℚ) ^ d2.length))
    else none
  | _ => none

/-- Models Python `float(s)` on a string (`None` models `ValueError`). -/
def pyFloat? (s : String) : Option ℚ :=
  match (pyStrip s).data with
  | '-' :: rest => (parseUFloat? rest).map Neg.neg
  | '+' :: rest => parseUFloat? rest
  | l => parseUFloat? l

/-- Embeds the `position` special case of the optional-field loop
(src/utils/data_processing.py:287-291): `int(float(value))` for
`int`/`float`/`str` values (a failed conversion drops the field), any other
value falling through to the verbatim-copy branch. -/
def positionField (cols : List String) (row : Row) : Option Cell :=
  if decide ("position" ∈ cols) && cellPresent row "position" then
    match cellOf row "position" with
    | Cell.int i => some (Cell.int i)
    | Cell.float q => some (Cell.int (ratTrunc q))
    | Cell.bool b => some (Cell.int (if b then 1 else 0))
    | Cell.str s =>
      match pyFloat? s with
      | some q => some (Cell.int (ratTrunc q))
      | none => none
    | c => some c
  else none

/-- Embeds the verbatim-copy branch of the optional-field loop
(src/utils/data_processing.py:300-301). -/
def copyField (cols : List String) (row : Row) (f : String) : Option Cell :=
  if decide (f ∈ cols) && cellPresent row f then some (cellOf row f) else none

/-- Embeds the boolean special case of the optional-field loop
(src/utils/data_processing.py:292-299).  Note this is inlined in the source
and is not `clean_to_bool`: strings are lowercased but not stripped, the
true-literal set has five members, and a non-member string maps to `false`. -/
def boolField (cols : List String) (row : Row) (f : String) : Option Bool :=
  if decide (f ∈ cols) && cellPresent row f then
    match cellOf row f with
    | Cell.bool b => some b
    | Cell.str s => some (decide (pyLower s ∈ ["true", "t", "yes", "y", "1"]))
    | Cell.int i => some (decide (i ≠ 0))
    | Cell.float q => some (decide (q ≠ 0))
    | _ => none
  else none

/-- Embeds the record construction of `transform_product_scraper_data`
(src/utils/data_processing.py:255-303) for one valid row, given the
successfully resolved row date. -/
def mkPSRecord (cols : List String) (row : Row) (d : DT) (kw : String)
    (cid stid : Int) : Record :=
  let pid := pyStr (cellOf row "id")
  { campaign_id := cid
    scrape_type_id := stid
    scrape_date := d.iso
    keyword := Cell.str kw
    product_id := pid
    title := pyStr (cellOf row "title")
    link :=
      if decide ("link" ∈ cols) && cellPresent row "link"
      then pyStr (cellOf row "link")
      else "https://example.com/product/" ++ pid
    position := positionField cols row
    rating := copyField cols row "rating"
    reviews := copyField cols row "reviews"
    price := copyField cols row "price"
    price_raw := copyField cols row "price_raw"
    merchant := copyField cols row "merchant"
    is_carousel := boolField cols row "is_carousel"
    carousel_position := copyField cols row "carousel_position"
    has_product_page := boolField cols row "has_product_page" }

/-- Embeds the row loop of `transform_product_scraper_data`
(src/utils/data_processing.py:237-303): rows with `isna` id or title are
skipped; `none` models the `AttributeError` raised by `.isoformat()` when a
row date resolves to a non-datetime. -/
def psGo (cols : List String) (defaultDate : Cell) (kw : String)
    (cid stid : Int) : List Row → Option (List Record)
  | [] => some []
  | row :: rest =>
    if Cell.isna (cellOf row "id") || Cell.isna (cellOf row "title") then
      psGo cols defaultDate kw cid stid rest
    else
      match resolveRowDate row defaultDate with
      | none => none
      | some d =>
        (psGo cols defaultDate kw cid stid rest).map
          (fun l => mkPSRecord cols row d kw cid stid :: l)

/-- Embeds `transform_product_scraper_data` (src/utils/data_processing.py:
208-306).  The guard requires only `id` and `title` (line 225). -/
def transform_product_scraper_data (cols : List String) (rows : List Row)
    (kw : String) (defaultDate : Cell) (cid stid : Int) : Option (List Record) :=
  if !(["id", "title"].all (fun c => decide (c ∈ cols))) then some []
  else psGo cols defaultDate kw cid stid rows

/-- The column test of the shopping-grid guard and the format detector
(src/utils/data_processing.py:130 and 325):
`col.startswith('Product') and ('_Title' in col or '_Link' in col)`. -/
def gridColCond (c : String) : Bool :=
  startsWithS "Product" c && (hasSubS "_Title" c || hasSubS "_Link" c)

/-- Column name of a product slot's title. -/
def slotTitle (i : Nat) : String := "Product" ++ Nat.repr i ++ "_Title"

/-- Column name of a product slot's link. -/
def slotLink (i : Nat) : String := "Product" ++ Nat.repr i ++ "_Link"

/-- Column name of a product slot's price. -/
def slotPrice (i : Nat) : String := "Product" ++ Nat.repr i ++ "_Price"

/-- Column name of a product slot's merchant. -/
def slotMerchant (i : Nat) : String := "Product" ++ Nat.repr i ++ "_Merchant"

/-- The per-slot emission test of the shopping-grid transformer
(src/utils/data_processing.py:164-165): both columns exist and both row
values are non-blank. -/
def gridSlotCond (cols : List String) (row : Row) (i : Nat) : Bool :=
  decide (slotTitle i ∈ cols) && decide (slotLink i ∈ cols) &&
  cellPresent row (slotTitle i) && cellPresent row (slotLink i)

/-- Embeds the per-slot record construction of the shopping-grid
transformer (src/utils/data_processing.py:167-202). -/
def mkGridRecord (cols : List String) (row : Row) (d : DT) (kwCell : Cell)
    (cid stid : Int) (pid : String) (i : Nat) : Record :=
  let priceInfo : Option ℚ × Option Cell :=
    if decide (slotPrice i ∈ cols) && cellPresent row (slotPrice i) then
      let ps := stripSyms (pyStr ((rowGet? row (slotPrice i)).getD (Cell.str ""))).data
      match firstNum ps with
      | some v => (some v, some (Cell.str (String.mk ps)))
      | none => (none, some (Cell.str (String.mk ps)))
    else (none, none)
  { campaign_id := cid
    scrape_type_id := stid
    scrape_date := d.iso
    keyword := kwCell
    product_id := pid
    title := pyStr ((rowGet? row (slotTitle i)).getD (Cell.str ""))
    link := pyStr ((rowGet? row (slotLink i)).getD (Cell.str ""))
    position := some (Cell.int (i : Int))
    price := (priceInfo.1).map Cell.float
    price_raw := priceInfo.2
    merchant :=
      if decide (slotMerchant i ∈ cols) && cellPresent row (slotMerchant i)
      then some (Cell.str (pyStr (cellOf row (slotMerchant i))))
      else none }

/-- Embeds one row of the shopping-grid transformer
(src/utils/data_processing.py:138-202).  The slot loop is `range(1, 15)`,
that is slots 1 through 14.  `gen` injects the `uuid.uuid4()` calls as a
deterministic supply indexed by a running counter.  The effective keyword is
`query if query else keyword` with `query = row.get('Query', keyword)`; a
blank (NaN) query is truthy in Python.  `none` models the `AttributeError`
raised at the first emitted record when the row date is not a datetime. -/
def gridRowRecords (cols : List String) (row : Row) (defaultDate : Cell)
    (kw : String) (cid stid : Int) (gen : Nat → String) (n : Nat) :
    Option (List Record × Nat) :=
  let slots := (List.range' 1 14).filter (gridSlotCond cols row)
  if slots.isEmpty then some ([], n)
  else
    match resolveRowDate row defaultDate with
    | none => none
    | some d =>
      let q := (rowGet? row "Query").getD (Cell.str kw)
      let kwCell := if q.truthy then q else Cell.str kw
      some (slots.mapIdx (fun j i => mkGridRecord cols row d kwCell cid stid (gen (n + j)) i),
            n + slots.length)

/-- Row recursion of the shopping-grid transformer. -/
def gridGo (cols : List String) (defaultDate : Cell) (kw : String)
    (cid stid : Int) (gen : Nat → String) : List Row → Nat → Option (List Record × Nat)
  | [], n => some ([], n)
  | row :: rest, n =>
    match gridRowRecords cols row defaultDate kw cid stid gen n with
    | none => none
    | some (rs1, n1) =>
      match gridGo cols defaultDate kw cid stid gen rest n1 with
      | none => none
      | some (rs2, n2) => some (rs1 ++ rs2, n2)

/-- Embeds `transform_shopping_grid_data` (src/utils/data_processing.py:
113-205). -/
def transform_shopping_grid_data (cols : List String) (rows : List Row)
    (kw : String) (defaultDate : Cell) (cid stid : Int) (gen : Nat → String)
    (n : Nat) : Option (List Record × Nat) :=
  if !(cols.any gridColCond) then some ([], n)
  else gridGo cols defaultDate kw cid stid gen rows n

/-- The four layouts the detector can decide between. -/
inductive Layout where
  | shoppingGrid : Layout
  | productStandard : Layout
  | productPositionNoLink : Layout
  | unrecognized : Layout
deriving DecidableEq, Repr

/-- The standard-product column test (src/utils/data_processing.py:329). -/
def psCond (cols : List String) : Bool :=
  ["id", "title", "link"].all (fun c => decide (c ∈ cols))

/-- The position-without-link column test (src/utils/data_processing.py:333). -/
def ppnlCond (cols : List String) : Bool :=
  ["position", "title", "id"].all (fun c => decide (c ∈ cols)) && !(decide ("link" ∈ cols))

/-- The layout classification implicit in the dispatch chain of
`detect_and_transform_data` (src/utils/data_processing.py:324-349). -/
def detectLayout (cols : List String) : Layout :=
  if cols.any gridColCond then Layout.shoppingGrid
  else if psCond cols then Layout.productStandard
  else if ppnlCond cols then Layout.productPositionNoLink
  else Layout.unrecognized

/-- Embeds the placeholder-link synthesis of the degraded layout
(src/utils/data_processing.py:339-343). -/
def addPlaceholderLink (row : Row) : Row :=
  row ++ [("link", Cell.str ("https://example.com/product/" ++ pyStr (cellOf row "id")))]

/-- Embeds `detect_and_transform_data` (src/utils/data_processing.py:
308-349). -/
def detect_and_transform_data (cols : List String) (rows : List Row)
    (kw : String) (defaultDate : Cell) (cid stid : Int) (gen : Nat → String)
    (n : Nat) : Option (List Record × Nat) :=
  if cols.any gridColCond then
    transform_shopping_grid_data cols rows kw defaultDate cid stid gen n
  else if psCond cols then
    (transform_product_scraper_data cols rows kw defaultDate cid stid).map (fun l => (l, n))
  else if ppnlCond cols then
    (transform_product_scraper_data (cols ++ ["link"]) (rows.map addPlaceholderLink)
      kw defaultDate cid stid).map (fun l => (l, n))
  else some ([], n)

/-- A persisted row: serial id plus the record's fields. -/
structure SRec where
  id : Nat
  r : Record
deriving DecidableEq, Repr

/-- The scrape_data table. -/
abbrev Store : Type := List SRec

/-- Operations issued against the persistent store, for stating which
queries a call performs. -/
inductive StoreOp where
  | probe : Int → StoreOp
  | fetch : List Int → List Int → List Cell → List String → StoreOp
  | insert : Record → StoreOp
deriving DecidableEq, Repr

/-- Models `SELECT COUNT(*) FROM scrape_data WHERE campaign_id = %s`
(src/database/models.py:89). -/
def countExisting (store : Store) (cid : Int) : Nat :=
  (store.filter (fun sr => decide (sr.r.campaign_id = cid))).length

/-- The first composite identity key: campaign, scrape type, calendar date,
keyword, product id (src/database/models.py:163-170 and 198-204). -/
def key1 (r : Record) : Int × Int × String × Cell × String :=
  (r.campaign_id, r.scrape_type_id, datePart r.scrape_date, r.keyword, r.product_id)

/-- The second composite identity key: campaign, scrape type, calendar date,
keyword, title, link (src/database/models.py:173-181 and 207-214). -/
def key2 (r : Record) : Int × Int × String × Cell × String × String :=
  (r.campaign_id, r.scrape_type_id, datePart r.scrape_date, r.keyword, r.title, r.link)

/-- The dates the duplicate-check query filters on: the batch's date parts
that match the anchored date regex (src/database/models.py:110-117). -/
def batchDates (batch : List Record) : List String :=
  batch.filterMap (fun r => matchYMD r.scrape_date)

/-- The WHERE clause of the duplicate-check fetch
(src/database/models.py:121-150): campaign, scrape type and keyword drawn
from the batch, and, when the batch contributed any regex-matching dates,
`DATE(scrape_date)` among them.  `datePart` models `str(DATE(scrape_date))`
of a persisted timestamp. -/
def fetchCond (cids stids : List Int) (kws : List Cell) (dates : List String)
    (sr : SRec) : Bool :=
  decide (sr.r.campaign_id ∈ cids) && decide (sr.r.scrape_type_id ∈ stids) &&
  decide (sr.r.keyword ∈ kws) &&
  (dates.isEmpty || decide (datePart sr.r.scrape_date ∈ dates))

/-- The rows returned by the duplicate-check fetch for a batch. -/
def fetchedOf (store : Store) (batch : List Record) : List SRec :=
  store.filter
    (fetchCond (batch.map (fun r => r.campaign_id)) (batch.map (fun r => r.scrape_type_id))
      (batch.map (fun r => r.keyword)) (batchDates batch))

/-- The non-duplicate sublist of the batch: records matching an existing row
on neither identity key (src/database/models.py:183-220). -/
def recordsToInsert (store : Store) (batch : List Record) : List Record :=
  let fetched := fetchedOf store batch
  let pkeys := fetched.map (fun sr => key1 sr.r)
  let tlkeys := fetched.map (fun sr => key2 sr.r)
  batch.filter (fun r => !(decide (key1 r ∈ pkeys)) && !(decide (key2 r ∈ tlkeys)))

/-- The per-record insert loop (src/database/models.py:222-238): each insert
returns its serial id; `failP` injects the possibility that an insert raises
(constraint violation, connectivity), carrying the exception message. -/
def insertAll (failP : Record → Option String) :
    Store → List Record → Except String (List Nat × Store)
  | st, [] => Except.ok ([], st)
  | st, r :: rest =>
    match failP r with
    | some m => Except.error m
    | none =>
      match insertAll failP (st ++ [⟨st.length, r⟩]) rest with
      | Except.ok (ids, st') => Except.ok (st.length :: ids, st')
      | Except.error m => Except.error m

/-- The insert operations actually issued before (and including) the first
failing insert. -/
def insOps (failP : Record → Option String) : List Record → List StoreOp
  | [] => []
  | r :: rest =>
    StoreOp.insert r :: (if (failP r).isSome then [] else insOps failP rest)

/-- Result of one `batch_insert_scrape_data` call: the returned ids or the
raised exception message, the store after commit/rollback, and the store
operations issued. -/
structure BRes where
  result : Except String (List Nat)
  store : Store
  ops : List StoreOp
deriving Repr

/-- Shared commit/rollback tail of the loader: a successful insert loop
commits the extended store and returns the ids; a raised insert rolls the
transaction back to the store at call entry and re-raises the message. -/
def finishInsert (store : Store) (res : Except String (List Nat × Store))
    (ops : List StoreOp) : BRes :=
  match res with
  | Except.ok (ids, st) => ⟨Except.ok ids, st, ops⟩
  | Except.error m => ⟨Except.error m, store, ops⟩

/-- Embeds `batch_insert_scrape_data` (src/database/models.py:77-251).
An empty batch returns immediately (line 82).  With `force_upload` false the
campaign of the first record is probed; a zero count upgrades the call to
force upload (lines 88-95).  Otherwise the batch is reconciled against the
fetched existing rows under the two identity keys.  Any insert failure rolls
the whole call back (`conn.rollback()`, line 249) and re-raises. -/
def batch_insert_scrape_data (store : Store) (batch : List Record)
    (force : Bool) (failP : Record → Option String) : BRes :=
  match batch with
  | [] => ⟨Except.ok [], store, []⟩
  | b :: bs =>
    if force then
      finishInsert store (insertAll failP store (b :: bs)) (insOps failP (b :: bs))
    else if countExisting store b.campaign_id = 0 then
      finishInsert store (insertAll failP store (b :: bs))
        (StoreOp.probe b.campaign_id :: insOps failP (b :: bs))
    else
      let batchL := b :: bs
      let fetchOp := StoreOp.fetch (batchL.map (fun r => r.campaign_id))
        (batchL.map (fun r => r.scrape_type_id)) (batchL.map (fun r => r.keyword))
        (batchDates batchL)
      let toIns := recordsToInsert store batchL
      finishInsert store (insertAll failP store toIns)
        (StoreOp.probe b.campaign_id :: fetchOp :: insOps failP toIns)

/-- A sheet: its column list and its rows. -/
structure SheetT where
  cols : List String
  rows : List Row
deriving Repr

/-- Aggregate statistics returned by `process_excel_file`
(src/main.py:56-60). -/
structure Stats where
  keywords_processed : Nat
  rows_processed : Nat
  errors : List String
deriving DecidableEq, Repr

/-- The scrape-type-dependent skip list (src/main.py:75-88). -/
def skipSheets (stid : Int) : List String :=
  if stid = 2 then ["Keywords", "Aggregated Results", "Error Logs", "Output"]
  else ["Keywords", "Aggregated Results", "Error Logs"]

/-- Fuel-indexed chunking helper; the fuel (the list's length) makes the
recursion structural so that it reduces in the kernel. -/
def chunksFuel : Nat → List Record → List (List Record)
  | _, [] => []
  | 0, _ :: _ => []
  | fuel + 1, r :: rest => (r :: rest.take 99) :: chunksFuel fuel (rest.drop 99)

/-- Splits a list into chunks of 100, modelling
`range(0, len(records), BATCH_SIZE)` (src/main.py:133-134). -/
def chunks100 (l : List Record) : List (List Record) :=
  chunksFuel l.length l

/-- The per-sheet batch loop (src/main.py:132-143): each failed batch
appends one error string built from the sheet name and the exception
message; processing continues with the next batch on the rolled-back store.
On success the counter advances by the batch length (not by the number of
rows actually inserted). -/
def insertLoop (name : String) (force : Bool) (failP : Record → Option String)
    (store : Store) : List (List Record) → Nat × List String × Store
  | [] => (0, [], store)
  | c :: cs =>
    let br := batch_insert_scrape_data store c force failP
    match br.result with
    | Except.ok _ =>
      let t := insertLoop name force failP br.store cs
      (c.length + t.1, t.2.1, t.2.2)
    | Except.error m =>
      let t := insertLoop name force failP br.store cs
      (t.1, ("Error inserting batch for sheet " ++ name ++ ": " ++ m) :: t.2.1, t.2.2)

/-- The sheet-date scan (src/main.py:106-115): first non-blank value of a
`Date` column, else `datetime.now()`; a found-but-falsy value also falls
back to now. -/
def sheetDate (sheet : SheetT) (now : DT) : Cell :=
  let found : Option Cell :=
    if decide ("Date" ∈ sheet.cols) then
      sheet.rows.findSome? (fun row =>
        let c := cellOf row "Date"
        if c.isna then none else some c)
    else none
  match found with
  | some c => if c.truthy then c else Cell.dt now
  | none => Cell.dt now

/-- Result of processing one sheet: keyword-count increment, row-count
increment, error strings, the store, and the id-generator counter. -/
structure SheetRes where
  kw : Nat
  rows : Nat
  errs : List String
  store : Store
  ctr : Nat

/-- Embeds the body of the per-sheet loop of `process_excel_file`
(src/main.py:93-152).  A `none` from the transformer models the transformer
raising, caught by the per-sheet handler. -/
def processSheet (name : String) (sheet : SheetT) (cid stid : Int)
    (force : Bool) (now : DT) (gen : Nat → String)
    (failP : Record → Option String) (store : Store) (n : Nat) : SheetRes :=
  if sheet.rows.isEmpty then
    ⟨0, 0, ["No data in sheet: " ++ name], store, n⟩
  else
    match detect_and_transform_data sheet.cols sheet.rows name (sheetDate sheet now)
        cid stid gen n with
    | none => ⟨0, 0, ["Error processing sheet " ++ name ++ ": attribute error"], store, n⟩
    | some (recs, n') =>
      if recs.isEmpty then
        ⟨0, 0, ["No valid records found in sheet: " ++ name], store, n'⟩
      else
        let t := insertLoop name force failP store (chunks100 recs)
        ⟨1, t.1, t.2.1, t.2.2, n'⟩

/-- The sheet recursion of `process_excel_file`. -/
def processSheets (cid stid : Int) (force : Bool) (now : DT)
    (gen : Nat → String) (failP : Record → Option String) :
    List (String × SheetT) → Store → Nat → Stats × Store
  | [], store, _ => (⟨0, 0, []⟩, store)
  | (name, sheet) :: rest, store, n =>
    let r1 := processSheet name sheet cid stid force now gen failP store n
    let r2 := processSheets cid stid force now gen failP rest r1.store r1.ctr
    (⟨r1.kw + r2.1.keywords_processed, r1.rows + r2.1.rows_processed,
      r1.errs ++ r2.1.errors⟩, r2.2)

/-- Embeds `process_excel_file` (src/main.py:37-160): filters the workbook's
sheets through the scrape-type skip list, then processes each sheet in
order, accumulating statistics and threading the store. -/
def process_excel_file (wb : List (String × SheetT)) (cid stid : Int)
    (force : Bool) (now : DT) (gen : Nat → String)
    (failP : Record → Option String) (store : Store) : Stats × Store :=
  processSheets cid stid force now gen failP
    (wb.filter (fun p => !(skipSheets stid).contains p.1)) store 0

/-! Shared definitions for the verification theorems. -/

/-- Two records agree on neither identity key. -/
abbrev distinctKeys (a b : Record) : Prop :=
  key1 a ≠ key1 b ∧ key2 a ≠ key2 b

/-- The persisted-corpus invariant: no two rows of the store share either
identity key. -/
abbrev StoreInv (store : Store) : Prop :=
  (store.map SRec.r).Pairwise distinctKeys

/-- Database well-formedness of a record: its scrape date is a string with
an ISO calendar-date prefix (anything else could not live in the timestamp
column, and the model's `datePart` agrees with SQL `DATE` exactly on such
strings), and its keyword is a string (the keyword column is text; this also
keeps the model's `blank = blank` equality away from Python's `NaN != NaN`). -/
abbrev wfRec (r : Record) : Prop :=
  (matchYMD r.scrape_date).isSome = true ∧ r.keyword.isStr = true

/-- A deterministic stand-in for the injected uuid supply. -/
def cGen : Nat → String := fun n => "uuid-" ++ Nat.repr n

/-- An insert oracle on which no insert ever fails. -/
def cNoFail : Record → Option String := fun _ => none

/-- A concrete datetime used by the evaluation scenarios. -/
def cDate : DT := ⟨"2024-03-01T00:00:00"⟩

/-- Store contents produced by `insertAll` from a starting id. -/
def tagFrom (k : Nat) : List Record → Store
  | [] => []
  | r :: rest => ⟨k, r⟩ :: tagFrom (k + 1) rest

/-! Helper lemmas. -/

theorem tagFrom_map_r (k : Nat) (rs : List Record) :
    (tagFrom k rs).map SRec.r = rs := by
  induction rs generalizing k with
  | nil => rfl
  | cons r rest ih => simp [tagFrom, ih]

theorem insertAll_ok_store (failP : Record → Option String) (rs : List Record)
    (st : Store) (ids : List Nat) (st' : Store)
    (h : insertAll failP st rs = Except.ok (ids, st')) :
    st' = st ++ tagFrom st.length rs := by
  induction rs generalizing st ids with
  | nil =>
    simp only [insertAll] at h
    cases h
    simp [tagFrom]
  | cons r rest ih =>
    simp only [insertAll] at h
    cases hf : failP r with
    | some m => rw [hf] at h; cases h
    | none =>
      rw [hf] at h
      cases hrec : insertAll failP (st ++ [⟨st.length, r⟩]) rest with
      | ok p =>
        obtain ⟨ids2, st2⟩ := p
        rw [hrec] at h
        cases h
        have := ih (st ++ [⟨st.length, r⟩]) ids2 hrec
        rw [this]
        simp [tagFrom, List.append_assoc]
      | error m => rw [hrec] at h; cases h

theorem insertAll_noFail (failP : Record → Option String) (rs : List Record)
    (st : Store) (h : ∀ r ∈ rs, failP r = none) :
    insertAll failP st rs =
      Except.ok (List.range' st.length rs.length, st ++ tagFrom st.length rs) := by
  induction rs generalizing st with
  | nil => simp [insertAll, tagFrom]
  | cons r rest ih =>
    have hr : failP r = none := h r (List.mem_cons_self r rest)
    have hrest : ∀ x ∈ rest, failP x = none := fun x hx => h x (List.mem_cons_of_mem r hx)
    have step := ih (st ++ [⟨st.length, r⟩]) hrest
    simp only [insertAll, hr, step]
    simp [tagFrom, List.range'_succ, List.append_assoc]

theorem insOps_noFail (failP : Record → Option String) (rs : List Record)
    (h : ∀ r ∈ rs, failP r = none) :
    insOps failP rs = rs.map StoreOp.insert := by
  induction rs with
  | nil => rfl
  | cons r rest ih =>
    have hr : failP r = none := h r (List.mem_cons_self r rest)
    have hrest : ∀ x ∈ rest, failP x = none := fun x hx => h x (List.mem_cons_of_mem r hx)
    simp [insOps, hr, ih hrest]

theorem firstNum_eq_none_iff (l : List Char) :
    firstNum l = none ↔ ∀ c ∈ l, c.isDigit = false := by
  induction l with
  | nil => simp [firstNum]
  | cons c cs ih =>
    by_cases h : c.isDigit = true
    · simp only [firstNum, h, if_true]
      constructor
      · intro hcontra; cases hcontra
      · intro hall
        have := hall c (List.mem_cons_self c cs)
        rw [h] at this
        cases this
    · have h' : c.isDigit = false := by
        cases hd : c.isDigit
        · rfl
        · exact absurd hd h
      simp [firstNum, h', ih]

theorem noDigit_strip_iff (l : List Char) :
    (∀ c ∈ stripSyms l, c.isDigit = false) ↔ (∀ c ∈ l, c.isDigit = false) := by
  constructor
  · intro h c hc
    cases hd : c.isDigit
    · rfl
    · exfalso
      have hns : c ∉ priceSyms := by
        intro hmem
        have : c.isDigit = false := by fin_cases hmem <;> rfl
        rw [hd] at this
        cases this
      have hmemS : c ∈ stripSyms l := by
        unfold stripSyms
        rw [List.mem_filter]
        exact ⟨hc, by simp [hns]⟩
      have := h c hmemS
      rw [hd] at this
      cases this
  · intro h c hc
    exact h c (List.mem_filter.mp hc).1

theorem hasSub_iff (pat l : List Char) : hasSub pat l = true ↔ pat <:+: l := by
  induction l with
  | nil =>
    simp only [hasSub, List.infix_nil, List.isEmpty_iff]
  | cons c rest ih =>
    simp only [hasSub, Bool.or_eq_true, List.infix_cons_iff,
      List.isPrefixOf_iff_prefix, ih]

theorem hasSub_append_self (pat l : List Char) : hasSub pat (l ++ pat) = true := by
  induction l with
  | nil =>
    cases pat with
    | nil => rfl
    | cons c cs =>
      simp only [List.nil_append, hasSub, Bool.or_eq_true, List.isPrefixOf_iff_prefix]
      exact Or.inl (List.prefix_refl _)
  | cons c cs ih =>
    simp only [List.cons_append, hasSub, Bool.or_eq_true]
    exact Or.inr ih

/-! Claim C9: the price normalizer. -/

/-- C9: for string input the price normalizer yields `none` exactly when the
input contains no digit (in particular on `""` and `"free"`), blank input
yields `none`, and `"$1,234.56"` — currency symbol and thousands separator
stripped — yields the value 1234.56 of its first digit run with a decimal
point. -/
theorem c9_price_normalizer :
    (∀ s : String, clean_price (Cell.str s) = none ↔ ∀ c ∈ s.data, c.isDigit = false) ∧
    clean_price (Cell.str "$1,234.56") = some ((123456 : ℚ) / 100) ∧
    clean_price (Cell.str "") = none ∧
    clean_price (Cell.str "free") = none ∧
    clean_price Cell.blank = none := by
  refine ⟨?_, ?_, by decide, by decide, rfl⟩
  · intro s
    show (firstNum (stripSyms s.data)).map id = none ↔ _
    rw [Option.map_eq_none', firstNum_eq_none_iff, noDigit_strip_iff]
  · show (firstNum (stripSyms ("$1,234.56".data))).map id = some ((123456 : ℚ) / 100)
    have hs : stripSyms ("$1,234.56".data) = ['1', '2', '3', '4', '.', '5', '6'] := by decide
    rw [hs]
    have h1 : firstNum ['1', '2', '3', '4', '.', '5', '6'] =
        some (numVal ['1', '2', '3', '4', '.', '5', '6']) := rfl
    rw [h1]
    have h2 : numVal ['1', '2', '3', '4', '.', '5', '6'] =
        ((1234 : ℕ) : ℚ) + ((56 : ℕ) : ℚ) / 10 ^ 2 := rfl
    simp only [Option.map_some', id_eq, h2, Option.some.injEq]
    norm_num

/-- Closed instance of `c9_price_normalizer` discharging the binders of its
first conjunct at a concrete digit-free string. -/
theorem c9_price_normalizer_witness :
    clean_price (Cell.str "no digits here!") = none :=
  (c9_price_normalizer.1 "no digits here!").mpr (by decide)

/-! Claim C10: the empty-batch early return. -/

/-- C10: an empty batch returns an empty id list immediately, leaves the
store untouched and issues no store operation — no existence probe, no
duplicate fetch, no insert — for every force-upload flag. -/
theorem c10_empty_batch (store : Store) (force : Bool)
    (failP : Record → Option String) :
    batch_insert_scrape_data store [] force failP = ⟨Except.ok [], store, []⟩ := rfl

/-! Claim C2: a second identical run persists nothing but still reports the
reprocessed row count. -/

/-- A one-sheet workbook in the standard product layout with a native
datetime `Date` cell. -/
def c2Row : Row :=
  [("id", Cell.str "p1"), ("title", Cell.str "t1"), ("link", Cell.str "l1"),
   ("Date", Cell.dt cDate)]

/-- The workbook for the idempotence scenario. -/
def c2Wb : List (String × SheetT) :=
  [("k1", ⟨["id", "title", "link", "Date"], [c2Row]⟩)]

/-- First run of the idempotence scenario, from an empty store. -/
def c2Run1 : Stats × Store :=
  process_excel_file c2Wb 7 1 false ⟨"2099-01-01T00:00:00"⟩ cGen cNoFail []

/-- Second run of the idempotence scenario, over the first run's store. -/
def c2Run2 : Stats × Store :=
  process_excel_file c2Wb 7 1 false ⟨"2099-01-01T00:00:00"⟩ cGen cNoFail c2Run1.2

/-- C2 (failing part): re-running `process_excel_file` on the same workbook,
campaign and scrape type with force upload off persists nothing new and
raises no error, but the second run reports `rows_processed = 1` — the
number of records reprocessed — not 0, because the per-sheet loop adds
`len(batch)` on success regardless of how many rows `batch_insert` actually
inserted. -/
theorem c2_second_run_counts_reprocessed_rows :
    c2Run1.2.length = 1 ∧ c2Run2.2 = c2Run1.2 ∧ c2Run2.1.errors = [] ∧
    c2Run1.1.rows_processed = 1 ∧ c2Run2.1.rows_processed = 1 := by
  refine ⟨rfl, by decide, rfl, rfl, rfl⟩

/-! Claim C6: the shopping-grid slot loop stops at 14. -/

/-- A shopping-grid row whose only populated product slot is slot 15. -/
def c6Row : Row :=
  [("Product15_Title", Cell.str "slot 15 title"),
   ("Product15_Link", Cell.str "https://x.example/15")]

/-- Columns of the slot-15 scenario. -/
def c6Cols : List String := ["Product15_Title", "Product15_Link"]

/-- C6 (failing part): a sheet recognized as shopping grid whose slot 15
satisfies the per-slot emission test (both columns present, both values
non-blank) nevertheless produces no record at all, because the slot loop
`range(1, 15)` covers slots 1 through 14 only. -/
theorem c6_slot15_never_emitted :
    detectLayout c6Cols = Layout.shoppingGrid ∧
    gridSlotCond c6Cols c6Row 15 = true ∧
    (15 : Nat) ∉ List.range' 1 14 ∧
    detect_and_transform_data c6Cols [c6Row] "kw" (Cell.dt cDate) 1 1 cGen 0 =
      some ([], 0) := by
  refine ⟨rfl, by decide, by decide, by decide⟩

/-! Claim C7: blank row-level Query. -/

/-- A shopping-grid row with a populated slot 1 and a blank `Query` cell. -/
def c7Row : Row :=
  [("Product1_Title", Cell.str "t1"), ("Product1_Link", Cell.str "l1"),
   ("Query", Cell.blank)]

/-- Columns of the blank-Query scenario. -/
def c7Cols : List String := ["Product1_Title", "Product1_Link", "Query"]

/-- C7 (failing part): with a `Query` column present and the row's `Query`
cell blank, the emitted record's keyword is the blank (NaN) value itself —
NaN being truthy, `query if query else keyword` keeps it — rather than the
sheet-level keyword. -/
theorem c7_blank_query_keyword :
    (detect_and_transform_data c7Cols [c7Row] "sheetkw" (Cell.dt cDate) 1 1 cGen 0).map
        (fun p => p.1.map (fun r => r.keyword)) = some [Cell.blank] ∧
    Cell.blank ≠ Cell.str "sheetkw" := by
  refine ⟨by decide, by decide⟩

/-! Claim C1: preservation of the two-key uniqueness invariant. -/

instance instDecDistinctKeys (a b : Record) : Decidable (distinctKeys a b) :=
  instDecidableAnd

instance instDecStoreInv (store : Store) : Decidable (StoreInv store) :=
  List.instDecidablePairwise _

/-- A record already persisted for campaign 1. -/
def c1r0 : Record :=
  { campaign_id := 1, scrape_type_id := 1, scrape_date := "2024-01-01T00:00:00",
    keyword := Cell.str "a", product_id := "p0", title := "t0", link := "l0" }

/-- A fresh record for campaign 1, distinct from `c1r0` on both keys. -/
def c1r1 : Record :=
  { campaign_id := 1, scrape_type_id := 1, scrape_date := "2024-01-01T00:00:00",
    keyword := Cell.str "a", product_id := "p1", title := "t1", link := "l1" }

/-- A store holding exactly `c1r0`. -/
def c1s0 : Store := [⟨0, c1r0⟩]

/-- C1 counterexample: from a duplicate-free store for a campaign that
already has persisted records, loading the batch `[c1r1, c1r1]` with force
upload off persists the same record twice — the loader reconciles incoming
records only against already-persisted rows, never against one another, so
the two-key uniqueness invariant is broken. -/
theorem c1_counterexample :
    StoreInv c1s0 ∧ countExisting c1s0 1 ≠ 0 ∧
    ¬ StoreInv (batch_insert_scrape_data c1s0 [c1r1, c1r1] false cNoFail).store := by
  refine ⟨by decide, by decide, by decide⟩

/-! Claim C3: the fresh-campaign fast path. -/

/-- The record used in the fresh-campaign witness. -/
def c3r : Record :=
  { campaign_id := 5, scrape_type_id := 2, scrape_date := "2024-04-01T00:00:00",
    keyword := Cell.str "fresh", product_id := "fp", title := "ft", link := "fl" }

/-- C3: with force upload off and zero persisted records for the campaign of
the batch's first record, the call issues the existence probe and then
inserts every record of the batch — its ids are returned in order, the store
is extended by exactly the batch, and no duplicate-check fetch is issued. -/
theorem c3_fresh_campaign (store : Store) (b : Record) (bs : List Record)
    (failP : Record → Option String)
    (hcount : countExisting store b.campaign_id = 0)
    (hok : ∀ r ∈ b :: bs, failP r = none) :
    batch_insert_scrape_data store (b :: bs) false failP =
      ⟨Except.ok (List.range' store.length (b :: bs).length),
       store ++ tagFrom store.length (b :: bs),
       StoreOp.probe b.campaign_id :: (b :: bs).map StoreOp.insert⟩ := by
  simp only [batch_insert_scrape_data, if_false, Bool.false_eq_true, hcount, if_true,
    insertAll_noFail failP (b :: bs) store hok, insOps_noFail failP (b :: bs) hok,
    finishInsert]

/-- Closed instance of `c3_fresh_campaign` on an empty store and a
one-record batch. -/
theorem c3_fresh_campaign_witness :
    batch_insert_scrape_data [] [c3r] false cNoFail =
      ⟨Except.ok [0], [⟨0, c3r⟩], [StoreOp.probe 5, StoreOp.insert c3r]⟩ := by
  have h := c3_fresh_campaign [] c3r [] cNoFail (by decide) (fun r _ => rfl)
  exact h

/-! Claim C5: layout detection. -/

/-- The spec's column pattern, written from the spec's words: the name is
`Product<N>_Title` or `Product<N>_Link` for some integer N (a nonempty digit
run). -/
def specProductCol (c : String) : Bool :=
  let l := c.data
  "Product".data.isPrefixOf l &&
  (let rest := l.drop 7
   (("_Title".data.isSuffixOf rest) && !(rest.take (rest.length - 6)).isEmpty &&
      (rest.take (rest.length - 6)).all Char.isDigit) ||
   (("_Link".data.isSuffixOf rest) && !(rest.take (rest.length - 5)).isEmpty &&
      (rest.take (rest.length - 5)).all Char.isDigit))

/-- C5 counterexample: the column `Product_Title` matches the spec's
`Product<N>_Title` pattern for no integer N (the digit run is empty), yet
the detector classifies a sheet with that single column as shopping grid —
the code tests only `startswith('Product')` plus a `_Title`/`_Link`
substring.  `Product1_Title` shows the spec pattern is not vacuous. -/
theorem c5_counterexample :
    specProductCol "Product1_Title" = true ∧
    (∀ c ∈ ["Product_Title"], specProductCol c = false) ∧
    detectLayout ["Product_Title"] = Layout.shoppingGrid := by
  refine ⟨by decide, by decide, by decide⟩

/-- Prop-level reading of the detector's actual per-column test. -/
def gridColP (c : String) : Prop :=
  "Product".data <+: c.data ∧ ("_Title".data <:+: c.data ∨ "_Link".data <:+: c.data)

theorem gridColCond_iff (c : String) : gridColCond c = true ↔ gridColP c := by
  unfold gridColCond gridColP startsWithS hasSubS
  rw [Bool.and_eq_true, Bool.or_eq_true, List.isPrefixOf_iff_prefix, hasSub_iff, hasSub_iff]

theorem anyGrid_iff (cols : List String) :
    cols.any gridColCond = true ↔ ∃ c ∈ cols, gridColP c := by
  simp only [List.any_eq_true, gridColCond_iff]

theorem psCond_iff (cols : List String) :
    psCond cols = true ↔ "id" ∈ cols ∧ "title" ∈ cols ∧ "link" ∈ cols := by
  simp [psCond]

theorem ppnlCond_iff (cols : List String) :
    ppnlCond cols = true ↔
      ("position" ∈ cols ∧ "title" ∈ cols ∧ "id" ∈ cols) ∧ "link" ∉ cols := by
  simp [ppnlCond]

theorem unrecognized_transform (cols : List String)
    (h1 : cols.any gridColCond = false) (h2 : psCond cols = false)
    (h3 : ppnlCond cols = false) (rows : List Row) (kw : String)
    (dd : Cell) (cid stid : Int) (gen : Nat → String) (n : Nat) :
    detect_and_transform_data cols rows kw dd cid stid gen n = some ([], n) := by
  simp [detect_and_transform_data, h1, h2, h3]

/-- C5 (amended): the detector classifies a sheet as shopping grid exactly
when some column starts with `Product` and contains `_Title` or `_Link` as a
substring (not the stricter `Product<N>_` pattern); that test runs first,
then the standard test (`id`, `title`, `link` all present), then the
degraded test (`position`, `title`, `id` present and `link` absent); a sheet
passing none of the three is unrecognized and transforms to no records. -/
instance instDecGridColP (c : String) : Decidable (gridColP c) :=
  decidable_of_iff (gridColCond c = true) (gridColCond_iff c)

theorem c5_layout_detection (cols : List String) :
    (detectLayout cols = Layout.shoppingGrid ↔ ∃ c ∈ cols, gridColP c) ∧
    (detectLayout cols = Layout.productStandard ↔
      (¬ ∃ c ∈ cols, gridColP c) ∧ ("id" ∈ cols ∧ "title" ∈ cols ∧ "link" ∈ cols)) ∧
    (detectLayout cols = Layout.productPositionNoLink ↔
      (¬ ∃ c ∈ cols, gridColP c) ∧ ¬("id" ∈ cols ∧ "title" ∈ cols ∧ "link" ∈ cols) ∧
      (("position" ∈ cols ∧ "title" ∈ cols ∧ "id" ∈ cols) ∧ "link" ∉ cols)) ∧
    (detectLayout cols = Layout.unrecognized ↔
      (¬ ∃ c ∈ cols, gridColP c) ∧ ¬("id" ∈ cols ∧ "title" ∈ cols ∧ "link" ∈ cols) ∧
      ¬(("position" ∈ cols ∧ "title" ∈ cols ∧ "id" ∈ cols) ∧ "link" ∉ cols)) ∧
    (∀ rows kw dd cid stid gen n, detectLayout cols = Layout.unrecognized →
      detect_and_transform_data cols rows kw dd cid stid gen n = some ([], n)) := by
  have hg := anyGrid_iff cols
  have hp := psCond_iff cols
  have hq := ppnlCond_iff cols
  by_cases h1 : cols.any gridColCond = true
  · have hd : detectLayout cols = Layout.shoppingGrid := by simp [detectLayout, h1]
    have hgp : ∃ c ∈ cols, gridColP c := hg.mp h1
    rw [hd]
    exact ⟨iff_of_true rfl hgp,
           iff_of_false (by decide) (fun h => h.1 hgp),
           iff_of_false (by decide) (fun h => h.1 hgp),
           iff_of_false (by decide) (fun h => h.1 hgp),
           fun rows kw dd cid stid gen n hcontra => absurd hcontra (by decide)⟩
  · have hnp : ¬ ∃ c ∈ cols, gridColP c := fun hex => h1 (hg.mpr hex)
    by_cases h2 : psCond cols = true
    · have hd : detectLayout cols = Layout.productStandard := by
        simp [detectLayout, h1, h2]
      have hps : "id" ∈ cols ∧ "title" ∈ cols ∧ "link" ∈ cols := hp.mp h2
      rw [hd]
      exact ⟨iff_of_false (by decide) (fun hx => hnp hx),
             iff_of_true rfl ⟨hnp, hps⟩,
             iff_of_false (by decide) (fun hx => hx.2.1 hps),
             iff_of_false (by decide) (fun hx => hx.2.1 hps),
             fun rows kw dd cid stid gen n hcontra => absurd hcontra (by decide)⟩
    · have hnps : ¬("id" ∈ cols ∧ "title" ∈ cols ∧ "link" ∈ cols) :=
        fun hx => h2 (hp.mpr hx)
      by_cases h3 : ppnlCond cols = true
      · have hd : detectLayout cols = Layout.productPositionNoLink := by
          simp [detectLayout, h1, h2, h3]
        have hpq : ("position" ∈ cols ∧ "title" ∈ cols ∧ "id" ∈ cols) ∧ "link" ∉ cols :=
          hq.mp h3
        rw [hd]
        exact ⟨iff_of_false (by decide) (fun hx => hnp hx),
               iff_of_false (by decide) (fun hx => hnps hx.2),
               iff_of_true rfl ⟨hnp, hnps, hpq⟩,
               iff_of_false (by decide) (fun hx => hx.2.2 hpq),
               fun rows kw dd cid stid gen n hcontra => absurd hcontra (by decide)⟩
      · have hnpq : ¬(("position" ∈ cols ∧ "title" ∈ cols ∧ "id" ∈ cols) ∧ "link" ∉ cols) :=
          fun hx => h3 (hq.mpr hx)
        have hd : detectLayout cols = Layout.unrecognized := by
          simp [detectLayout, h1, h2, h3]
        rw [hd]
        refine ⟨iff_of_false (by decide) (fun hx => hnp hx),
                iff_of_false (by decide) (fun hx => hnps hx.2),
                iff_of_false (by decide) (fun hx => hnpq hx.2.2),
                iff_of_true rfl ⟨hnp, hnps, hnpq⟩, ?_⟩
        intro rows kw dd cid stid gen n _
        exact unrecognized_transform cols (Bool.eq_false_iff.mpr h1)
          (Bool.eq_false_iff.mpr h2) (Bool.eq_false_iff.mpr h3) rows kw dd cid stid gen n

/-- Closed instance of `c5_layout_detection`: the degraded layout on its
minimal column set, via the theorem's third conjunct. -/
theorem c5_layout_detection_witness :
    detectLayout ["position", "title", "id"] = Layout.productPositionNoLink :=
  ((c5_layout_detection ["position", "title", "id"]).2.2.1).mpr
    ⟨by decide, by decide, by decide⟩

/-! Claim C8: the boolean optional fields of the standard transformer. -/

/-- A standard-layout row whose `is_carousel` cell is the string "1.0". -/
def c8Row : Row :=
  [("id", Cell.str "p"), ("title", Cell.str "t"), ("link", Cell.str "l"),
   ("is_carousel", Cell.str "1.0")]

/-- C8 counterexample: on the cell `"1.0"` the bool normalizer
`clean_to_bool` yields `some true` ("1.0" is one of its true-literals), but
the record emitted by the standard transformer carries `is_carousel = some
false` — the transformer's inline conversion tests membership of the
unstripped lowercase value in `{true,t,yes,y,1}` only and maps every other
string to `false`. -/
theorem c8_counterexample :
    (transform_product_scraper_data ["id", "title", "link", "is_carousel"]
        [c8Row] "k" (Cell.dt cDate) 1 1).map (fun l => l.map (fun r => r.is_carousel)) =
      some [some false] ∧
    clean_to_bool (Cell.str "1.0") = some true := by
  refine ⟨by decide, by decide⟩

/-- The conversion the transformer actually applies to the two boolean
fields, written from the amended claim: native booleans pass through;
strings map to whether the lowercased (unstripped) value is one of
`{true,t,yes,y,1}`; numbers map zero to false and nonzero to true; any other
value leaves the field absent. -/
def transformerBoolSpec : Cell → Option Bool
  | Cell.bool b => some b
  | Cell.str s => some (decide (pyLower s ∈ ["true", "t", "yes", "y", "1"]))
  | Cell.int i => some (decide (i ≠ 0))
  | Cell.float q => some (decide (q ≠ 0))
  | _ => none

theorem boolField_eq_spec (cols : List String) (row : Row) (f : String)
    (c : Cell) (hm : f ∈ cols) (hg : rowGet? row f = some c) :
    boolField cols row f = transformerBoolSpec c := by
  unfold boolField cellPresent cellOf transformerBoolSpec
  rw [hg]
  cases c <;> simp [hm, Cell.isna]

/-- C8 (amended): for every standard-layout row whose `is_carousel` or
`has_product_page` cell is present, the value stored on the emitted record
is the transformer's inline conversion of that cell (`transformerBoolSpec`),
not `clean_to_bool`; and a valid row's emitted record is `mkPSRecord` of the
row. -/
theorem c8_bool_fields :
    (∀ (cols : List String) (row : Row) (d : DT) (kw : String) (cid stid : Int) (c : Cell),
      ("is_carousel" ∈ cols → rowGet? row "is_carousel" = some c →
        (mkPSRecord cols row d kw cid stid).is_carousel = transformerBoolSpec c) ∧
      ("has_product_page" ∈ cols → rowGet? row "has_product_page" = some c →
        (mkPSRecord cols row d kw cid stid).has_product_page = transformerBoolSpec c)) ∧
    (∀ (cols : List String) (row : Row) (rest : List Row) (dd : Cell) (kw : String)
        (cid stid : Int) (d : DT),
      Cell.isna (cellOf row "id") = false → Cell.isna (cellOf row "title") = false →
      resolveRowDate row dd = some d →
      psGo cols dd kw cid stid (row :: rest) =
        (psGo cols dd kw cid stid rest).map
          (fun l => mkPSRecord cols row d kw cid stid :: l)) := by
  constructor
  · intro cols row d kw cid stid c
    constructor
    · intro hm hg
      show boolField cols row "is_carousel" = transformerBoolSpec c
      exact boolField_eq_spec cols row "is_carousel" c hm hg
    · intro hm hg
      show boolField cols row "has_product_page" = transformerBoolSpec c
      exact boolField_eq_spec cols row "has_product_page" c hm hg
  · intro cols row rest dd kw cid stid d h1 h2 h3
    simp [psGo, h1, h2, h3]

/-- Closed instance of `c8_bool_fields` at a concrete row. -/
theorem c8_bool_fields_witness :
    (mkPSRecord ["id", "title", "is_carousel"] [("is_carousel", Cell.str "yes")]
      cDate "k" 1 1).is_carousel = some true := by
  have h := (c8_bool_fields.1 ["id", "title", "is_carousel"]
    [("is_carousel", Cell.str "yes")] cDate "k" 1 1 (Cell.str "yes")).1
    (by decide) (by decide)
  exact h.trans (by decide)

/-! Claim C4: per-batch rollback, error surfacing, and continuation. -/

instance instDecEqExcept {e a : Type} [DecidableEq e] [DecidableEq a] :
    DecidableEq (Except e a) := fun x y =>
  match x, y with
  | Except.ok v, Except.ok w =>
    if h : v = w then isTrue (by rw [h])
    else isFalse (by intro hc; cases hc; exact h rfl)
  | Except.ok _, Except.error _ => isFalse (by intro hc; cases hc)
  | Except.error _, Except.ok _ => isFalse (by intro hc; cases hc)
  | Except.error v, Except.error w =>
    if h : v = w then isTrue (by rw [h])
    else isFalse (by intro hc; cases hc; exact h rfl)

theorem finishInsert_error_store (store : Store)
    (res : Except String (List Nat × Store)) (ops : List StoreOp) (m : String)
    (h : (finishInsert store res ops).result = Except.error m) :
    (finishInsert store res ops).store = store := by
  cases res with
  | ok p =>
    obtain ⟨ids, st⟩ := p
    simp [finishInsert] at h
  | error m2 => rfl

theorem batch_insert_error_rollback (store : Store) (batch : List Record)
    (force : Bool) (failP : Record → Option String) (m : String)
    (h : (batch_insert_scrape_data store batch force failP).result = Except.error m) :
    (batch_insert_scrape_data store batch force failP).store = store := by
  cases batch with
  | nil => simp [batch_insert_scrape_data] at h
  | cons b bs =>
    simp only [batch_insert_scrape_data] at h ⊢
    by_cases hf : force = true
    · rw [if_pos hf] at h ⊢
      exact finishInsert_error_store _ _ _ m h
    · rw [if_neg hf] at h ⊢
      by_cases hc : countExisting store b.campaign_id = 0
      · rw [if_pos hc] at h ⊢
        exact finishInsert_error_store _ _ _ m h
      · rw [if_neg hc] at h ⊢
        exact finishInsert_error_store _ _ _ m h

theorem insertAll_firstFail (failP : Record → Option String) (st : Store)
    (pre : List Record) (r : Record) (post : List Record) (m : String)
    (hpre : ∀ x ∈ pre, failP x = none) (hr : failP r = some m) :
    insertAll failP st (pre ++ r :: post) = Except.error m := by
  induction pre generalizing st with
  | nil => simp [insertAll, hr]
  | cons x xs ih =>
    have hx : failP x = none := hpre x (List.mem_cons_self x xs)
    have hxs : ∀ y ∈ xs, failP y = none := fun y hy => hpre y (List.mem_cons_of_mem x hy)
    have step := ih (st ++ [⟨st.length, x⟩]) hxs
    have key : insertAll failP st ((x :: xs) ++ r :: post) =
        insertAll failP st (x :: (xs ++ r :: post)) := by rw [List.cons_append]
    rw [key]
    simp only [insertAll, hx, step]

theorem insertLoop_error_cont (name : String) (force : Bool)
    (failP : Record → Option String) (store : Store) (c : List Record)
    (cs : List (List Record)) (m : String)
    (h : (batch_insert_scrape_data store c force failP).result = Except.error m) :
    insertLoop name force failP store (c :: cs) =
      ((insertLoop name force failP store cs).1,
       ("Error inserting batch for sheet " ++ name ++ ": " ++ m) ::
         (insertLoop name force failP store cs).2.1,
       (insertLoop name force failP store cs).2.2) := by
  have hs := batch_insert_error_rollback store c force failP m h
  simp only [insertLoop]
  rw [h, hs]

theorem errString_contains (name m : String) :
    hasSubS m ("Error inserting batch for sheet " ++ name ++ ": " ++ m) = true := by
  unfold hasSubS
  rw [String.data_append]
  exact hasSub_append_self m.data _

/-- C4: a failing insert aborts its whole batch — the call's result is the
triggering exception's message, the store is exactly as before the call (the
per-batch transaction is rolled back), the first failing record of the
insert queue determines the raised message, the batch loop surfaces one
error string per failed batch (the sheet name plus the exception message,
which it contains as a substring) and carries on with the remaining batches
on the rolled-back store, and the sheet loop likewise continues with the
remaining sheets. -/
theorem c4_batch_failure :
    (∀ (store : Store) (batch : List Record) (force : Bool)
        (failP : Record → Option String) (m : String),
      (batch_insert_scrape_data store batch force failP).result = Except.error m →
      (batch_insert_scrape_data store batch force failP).store = store) ∧
    (∀ (failP : Record → Option String) (st : Store) (pre : List Record)
        (r : Record) (post : List Record) (m : String),
      (∀ x ∈ pre, failP x = none) → failP r = some m →
      insertAll failP st (pre ++ r :: post) = Except.error m) ∧
    (∀ (name : String) (force : Bool) (failP : Record → Option String)
        (store : Store) (c : List Record) (cs : List (List Record)) (m : String),
      (batch_insert_scrape_data store c force failP).result = Except.error m →
      insertLoop name force failP store (c :: cs) =
        ((insertLoop name force failP store cs).1,
         ("Error inserting batch for sheet " ++ name ++ ": " ++ m) ::
           (insertLoop name force failP store cs).2.1,
         (insertLoop name force failP store cs).2.2)) ∧
    (∀ name m : String,
      hasSubS m ("Error inserting batch for sheet " ++ name ++ ": " ++ m) = true) ∧
    (∀ (cid stid : Int) (force : Bool) (now : DT) (gen : Nat → String)
        (failP : Record → Option String) (name : String) (sheet : SheetT)
        (rest : List (String × SheetT)) (store : Store) (n : Nat),
      processSheets cid stid force now gen failP ((name, sheet) :: rest) store n =
        (let r1 := processSheet name sheet cid stid force now gen failP store n
         let r2 := processSheets cid stid force now gen failP rest r1.store r1.ctr
         (⟨r1.kw + r2.1.keywords_processed, r1.rows + r2.1.rows_processed,
           r1.errs ++ r2.1.errors⟩, r2.2))) :=
  ⟨batch_insert_error_rollback, insertAll_firstFail, insertLoop_error_cont,
   errString_contains, fun _ _ _ _ _ _ _ _ _ _ _ => rfl⟩

/-- A record whose insert the failure oracle rejects. -/
def c4FailRec : Record :=
  { campaign_id := 9, scrape_type_id := 1, scrape_date := "2024-05-01T00:00:00",
    keyword := Cell.str "x", product_id := "failing", title := "xt", link := "xl" }

/-- A record whose insert succeeds. -/
def c4OkRec : Record :=
  { campaign_id := 9, scrape_type_id := 1, scrape_date := "2024-05-01T00:00:00",
    keyword := Cell.str "x", product_id := "okay", title := "yt", link := "yl" }

/-- An oracle failing exactly on `c4FailRec`. -/
def c4Fail : Record → Option String :=
  fun r => if r.product_id = "failing" then some "boom" else none

/-- Closed instance of `c4_batch_failure`: the first batch fails, its error
string carries the exception message, and the second batch is still
persisted on the rolled-back store. -/
theorem c4_batch_failure_witness :
    insertLoop "s1" false c4Fail [] [[c4FailRec], [c4OkRec]] =
      (1, ["Error inserting batch for sheet s1: boom"], [⟨0, c4OkRec⟩]) := by
  have h := c4_batch_failure.2.2.1 "s1" false c4Fail [] [c4FailRec] [[c4OkRec]]
    "boom" (by decide)
  exact h.trans (by decide)

theorem recordsToInsert_eq (store : Store) (batch : List Record) :
    recordsToInsert store batch = batch.filter (fun r =>
      !(decide (key1 r ∈ (fetchedOf store batch).map (fun sr => key1 sr.r))) &&
      !(decide (key2 r ∈ (fetchedOf store batch).map (fun sr => key2 sr.r)))) := rfl

theorem mem_fetchedOf (store : Store) (batch : List Record) (sr : SRec) (y : Record)
    (hsr : sr ∈ store) (hy : y ∈ batch) (hwf : (matchYMD y.scrape_date).isSome = true)
    (h1 : sr.r.campaign_id = y.campaign_id)
    (h2 : sr.r.scrape_type_id = y.scrape_type_id)
    (h3 : datePart sr.r.scrape_date = datePart y.scrape_date)
    (h4 : sr.r.keyword = y.keyword) :
    sr ∈ fetchedOf store batch := by
  obtain ⟨dstr, hd⟩ := Option.isSome_iff_exists.mp hwf
  have hdm : dstr ∈ batchDates batch := List.mem_filterMap.mpr ⟨y, hy, hd⟩
  have hdp : datePart y.scrape_date = dstr := by unfold datePart; rw [hd]; rfl
  unfold fetchedOf fetchCond
  rw [List.mem_filter]
  refine ⟨hsr, ?_⟩
  simp only [Bool.and_eq_true, Bool.or_eq_true, decide_eq_true_eq]
  refine ⟨⟨⟨?_, ?_⟩, ?_⟩, Or.inr ?_⟩
  · rw [h1]; exact List.mem_map.mpr ⟨y, hy, rfl⟩
  · rw [h2]; exact List.mem_map.mpr ⟨y, hy, rfl⟩
  · rw [h4]; exact List.mem_map.mpr ⟨y, hy, rfl⟩
  · rw [h3, hdp]; exact hdm

/-- C1 (amended): with force upload off, against a campaign that already has
persisted records, a batch whose records pairwise disagree on both identity
keys — the loader never compares incoming records against one another — and
whose dates and keywords are database-well-formed, preserves the two-key
uniqueness invariant of the persisted corpus, whether the insert loop
commits or rolls back. -/
theorem c1_dedup_preserves_uniqueness (store : Store) (b : Record)
    (bs : List Record) (failP : Record → Option String)
    (hwfB : ∀ r ∈ b :: bs, wfRec r)
    (_hwfS : ∀ sr ∈ store, wfRec sr.r)
    (hcount : countExisting store b.campaign_id ≠ 0)
    (hStore : StoreInv store)
    (hBatch : (b :: bs).Pairwise distinctKeys) :
    StoreInv (batch_insert_scrape_data store (b :: bs) false failP).store := by
  simp only [batch_insert_scrape_data]
  rw [if_neg (by decide), if_neg hcount]
  cases hins : insertAll failP store (recordsToInsert store (b :: bs)) with
  | error m =>
    exact hStore
  | ok p =>
    obtain ⟨ids, st⟩ := p
    show StoreInv st
    have hst := insertAll_ok_store failP (recordsToInsert store (b :: bs)) store ids st hins
    subst hst
    show ((store ++ tagFrom store.length (recordsToInsert store (b :: bs))).map
      SRec.r).Pairwise distinctKeys
    rw [List.map_append, tagFrom_map_r, List.pairwise_append]
    have hsub : (recordsToInsert store (b :: bs)).Sublist (b :: bs) := by
      rw [recordsToInsert_eq]
      exact List.filter_sublist _
    refine ⟨hStore, List.Pairwise.sublist hsub hBatch, ?_⟩
    intro x hx y hy
    obtain ⟨sr, hsr, hxr⟩ := List.mem_map.mp hx
    subst hxr
    rw [recordsToInsert_eq, List.mem_filter] at hy
    obtain ⟨hyB, hycond⟩ := hy
    rw [Bool.and_eq_true, Bool.not_eq_true', Bool.not_eq_true',
      decide_eq_false_iff_not, decide_eq_false_iff_not] at hycond
    obtain ⟨hk1, hk2⟩ := hycond
    have hwfy := hwfB y hyB
    constructor
    · intro heq
      apply hk1
      have hcomp := heq
      simp only [key1, Prod.mk.injEq] at hcomp
      obtain ⟨e1, e2, e3, e4, e5⟩ := hcomp
      exact List.mem_map.mpr
        ⟨sr, mem_fetchedOf store (b :: bs) sr y hsr hyB hwfy.1 e1 e2 e3 e4, heq⟩
    · intro heq
      apply hk2
      have hcomp := heq
      simp only [key2, Prod.mk.injEq] at hcomp
      obtain ⟨e1, e2, e3, e4, e5, e6⟩ := hcomp
      exact List.mem_map.mpr
        ⟨sr, mem_fetchedOf store (b :: bs) sr y hsr hyB hwfy.1 e1 e2 e3 e4, heq⟩

/-- A persisted row for the witness of the amended C1. -/
def c1wStore : Store :=
  [⟨0, { campaign_id := 2, scrape_type_id := 3, scrape_date := "2024-02-02T00:00:00",
         keyword := Cell.str "w", product_id := "q0", title := "wt", link := "wl" }⟩]

/-- A fresh record for the witness of the amended C1. -/
def c1wRec : Record :=
  { campaign_id := 2, scrape_type_id := 3, scrape_date := "2024-02-03T00:00:00",
    keyword := Cell.str "w", product_id := "q1", title := "wt2", link := "wl2" }

/-- Closed instance of `c1_dedup_preserves_uniqueness` at a concrete
one-record batch over a one-row store. -/
theorem c1_dedup_preserves_uniqueness_witness :
    StoreInv (batch_insert_scrape_data c1wStore [c1wRec] false cNoFail).store :=
  c1_dedup_preserves_uniqueness c1wStore c1wRec [] cNoFail (by decide) (by decide)
    (by decide) (by decide) (by decide)
